import Mathlib

/-!
Shallow embedding of `pairing.py` (FIDE binance pairing script).

The sqlite table `rounds` is modelled as a `List Row`, one `Row` per table
row, in rowid order.  `rowId` is sqlite's implicit integer primary key;
`lichess_game_id` and `result` are the two nullable columns
(`result`: 0 = black wins, 1 = white wins, 2 = draw, 3 = unknown).

Python exceptions are modelled explicitly: sqlite's `OperationalError`
(raised by `cur.execute` on malformed SQL) and `TypeError` (raised by
`str.join` on non-string items) as `PyError`, remote-service failures of
`Pairing.create_game` as `ApiError`.  Functions that can raise return
`Except`, or return the final database state paired with an optional
error where the Python code mutates the connection in place before the
exception propagates.
-/

/-- Errors raised by the Python runtime / sqlite3 driver. -/
inductive PyError where
  | operationalError
  | typeError
deriving DecidableEq

/-- Failure modes of the remote session-creation call. -/
inductive ApiError where
  | invalidPairing
  | remoteUnavailable
deriving DecidableEq

/-- The `Pair` dataclass. -/
structure Pair where
  white_player : String
  black_player : String
deriving DecidableEq

/-- One row of the `rounds` table. -/
structure Row where
  rowId : Nat
  white_player : String
  black_player : String
  lichess_game_id : Option String
  result : Option Int
  round_nb : Int
deriving DecidableEq

namespace Db

/-- `Db.get_unpaired_players`: SELECT of `rowId, white_player, black_player`
    over rows with `lichess_game_id IS NULL AND round_nb = ?`. -/
def get_unpaired_players (db : List Row) (round_nb : Int) : List (Nat × Pair) :=
  (db.filter (fun r => r.lichess_game_id.isNone && r.round_nb == round_nb)).map
    (fun r => (r.rowId, Pair.mk r.white_player r.black_player))

/-- `Db.add_lichess_game_id`: `UPDATE rounds SET lichess_game_id = ? WHERE rowId = ?`.
    The UPDATE is unconditional: it has no `lichess_game_id IS NULL` guard. -/
def add_lichess_game_id (db : List Row) (row_id : Nat) (game_id : String) : List Row :=
  db.map (fun r => if r.rowId = row_id then { r with lichess_game_id := some game_id } else r)

/-- `Db.get_unfinished_games`: its SELECT statement reads
    `SELECT rowId, lichess_game_id, FROM rounds WHERE ...` — the trailing
    comma after `lichess_game_id` is a SQLite syntax error, so `cur.execute`
    raises `sqlite3.OperationalError` before producing any row, for every
    database and every round number. -/
def get_unfinished_games (_db : List Row) (_round_nb : Int) :
    Except PyError (List (String × Nat)) :=
  Except.error PyError.operationalError

/-- `Db.get_game_ids`: the SELECT of `lichess_game_id` over rows with
    `lichess_game_id IS NOT NULL AND round_nb = ?` yields a list of 1-tuples;
    `" ".join(raw_data)` requires string items, so it raises `TypeError` as
    soon as the list is non-empty, and returns `""` on the empty list. -/
def get_game_ids (db : List Row) (round_nb : Int) : Except PyError String :=
  let raw_data := db.filter (fun r => r.lichess_game_id.isSome && r.round_nb == round_nb)
  if raw_data.isEmpty then Except.ok "" else Except.error PyError.typeError

/-- `Db.add_game_result`: `UPDATE rounds SET result = ? WHERE rowId = ?`.
    Like `add_lichess_game_id`, the UPDATE is unconditional: no
    `result IS NULL` guard. -/
def add_game_result (db : List Row) (row_id : Nat) (result : Int) : List Row :=
  db.map (fun r => if r.rowId = row_id then { r with result := some result } else r)

end Db

/-- One `{id, status}` entry of the batched status-lookup response. -/
structure GameEntry where
  id : String
  status : String
deriving DecidableEq

/-- Base URL of the remote service (release value; under `__debug__` the
    script swaps in a localhost test server, which changes no claim here). -/
def BASE : String := "https://lichess.org"

/-- `PAIRING_API.format(white, black)`: the two players are identified by
    the two path segments of the challenge URL, white first. -/
def PAIRING_API (white black : String) : String :=
  BASE ++ "/api/challenge/admin/" ++ white ++ "/" ++ black

/-- The outbound request built by `Pairing.create_game`: URL plus the
    fixed form payload `rated="true"`, `clock.limit=600`,
    `clock.increment=2`, `color="white"`. -/
structure ChallengeRequest where
  url : String
  rated : String
  clockLimit : Nat
  clockIncrement : Nat
  color : String
deriving DecidableEq

namespace Pairing

/-- The request `Pairing.create_game` issues for a pair (lines 213-222). -/
def create_game_request (pair : Pair) : ChallengeRequest :=
  { url := PAIRING_API pair.white_player pair.black_player
    rated := "true"
    clockLimit := 600
    clockIncrement := 2
    color := "white" }

/-- The loop of `Pairing.pair_all_players` over the snapshot returned by
    `get_unpaired_players`.  `createGame` abstracts the remote call of
    `Pairing.create_game` (network result for each pair).  There is no
    try/except around the loop body: the first failing `create_game` makes
    the exception propagate, keeping the database mutations made so far and
    leaving the remaining records untouched.  Returns the final database
    state and the propagated error, if any. -/
def pair_all_players_loop (createGame : Pair → Except ApiError String) (db : List Row) :
    List (Nat × Pair) → List Row × Option ApiError
  | [] => (db, none)
  | (row_id, pair) :: rest =>
    match createGame pair with
    | Except.error e => (db, some e)
    | Except.ok game_id =>
        pair_all_players_loop createGame (Db.add_lichess_game_id db row_id game_id) rest

/-- `Pairing.pair_all_players` (lines 208-211). -/
def pair_all_players (db : List Row) (round_nb : Int)
    (createGame : Pair → Except ApiError String) : List Row × Option ApiError :=
  pair_all_players_loop createGame db (Db.get_unpaired_players db round_nb)

/-- `Pairing.check_all_results` (lines 227-234).  `remote` abstracts the
    batched status-lookup endpoint, mapping the comma-joined request body to
    the response entries.  Returns the final database state, the propagated
    error if any, and the list of lookup request bodies actually sent.
    The loop over the response (lines 231-234) only logs each entry's
    `status` and `id`; it performs no database write. -/
def check_all_results (db : List Row) (round_nb : Int)
    (remote : String → List GameEntry) : List Row × Option PyError × List String :=
  match Db.get_unfinished_games db round_nb with
  | Except.error e => (db, some e, [])
  | Except.ok games_dic =>
    let body := String.intercalate "," (games_dic.map Prod.fst)
    let _rep := remote body
    (db, none, [body])

end Pairing

/-! Concrete databases used as counterexamples and witnesses. -/

/-- A record that already has a session id and no result yet. -/
def exRowPaired : Row :=
  { rowId := 1, white_player := "a", black_player := "b"
    lichess_game_id := some "old", result := none, round_nb := 1 }

/-! ## C1 -/

/-- C1, counterexample: the claim says that on a record whose `session_id`
    is already non-null, `add_lichess_game_id` is a no-op.  On a record
    holding `"old"`, the update with `"new"` overwrites: the stored value
    afterwards is `"new"`, not the original `"old"`. -/
theorem add_lichess_game_id_not_noop_cex :
    exRowPaired.lichess_game_id = some "old" ∧
    (Db.add_lichess_game_id [exRowPaired] 1 "new").map Row.lichess_game_id = [some "new"] := by
  decide

/-- C1, amended: `add_lichess_game_id` is an unconditional UPDATE — after
    the call, every row with the given `rowId` holds the new game id,
    whatever its previous `lichess_game_id` was. -/
theorem add_lichess_game_id_overwrites (db : List Row) (row_id : Nat) (game_id : String)
    (r : Row) (hr : r ∈ Db.add_lichess_game_id db row_id game_id) (hid : r.rowId = row_id) :
    r.lichess_game_id = some game_id := by
  rcases List.mem_map.mp hr with ⟨r0, _, hmap⟩
  by_cases h0 : r0.rowId = row_id
  · simp [h0] at hmap
    rw [← hmap]
  · simp [h0] at hmap
    rw [← hmap] at hid
    exact absurd hid h0

/-- C1 witness: instantiation of `add_lichess_game_id_overwrites` on the
    one-row database. -/
theorem add_lichess_game_id_overwrites_witness :
    ({ exRowPaired with lichess_game_id := some "new" } : Row).lichess_game_id = some "new" :=
  add_lichess_game_id_overwrites [exRowPaired] 1 "new"
    { exRowPaired with lichess_game_id := some "new" } (by decide) (by decide)

/-! ## C5 -/

/-- A record whose result is already recorded as a draw (2). -/
def exRowResolved : Row :=
  { rowId := 1, white_player := "a", black_player := "b"
    lichess_game_id := some "S1", result := some 2, round_nb := 1 }

/-- C5, counterexample: the claim says `add_game_result` no-ops when the
    result is already set.  On a record whose result is 2 (draw), setting 1
    (white wins) overwrites: the stored result afterwards is 1, not 2. -/
theorem add_game_result_not_noop_cex :
    exRowResolved.result = some 2 ∧
    (Db.add_game_result [exRowResolved] 1 1).map Row.result = [some 1] := by
  decide

/-- C5, amended: `add_game_result` is an unconditional UPDATE — after the
    call every row with the given `rowId` holds the new result, whatever was
    stored before.  Invoking `check_all_results` twice with unchanged remote
    state does yield identical database state, but only because
    `check_all_results` never writes any result at all (its loop only logs,
    and it fails before reaching it). -/
theorem add_game_result_overwrites (db : List Row) (row_id : Nat) (result : Int)
    (r : Row) (hr : r ∈ Db.add_game_result db row_id result) (hid : r.rowId = row_id) :
    r.result = some result ∧
    ∀ (round_nb : Int) (remote : String → List GameEntry),
      Pairing.check_all_results (Pairing.check_all_results db round_nb remote).1 round_nb remote
        = Pairing.check_all_results db round_nb remote := by
  constructor
  · rcases List.mem_map.mp hr with ⟨r0, _, hmap⟩
    by_cases h0 : r0.rowId = row_id
    · simp [h0] at hmap
      rw [← hmap]
    · simp [h0] at hmap
      rw [← hmap] at hid
      exact absurd hid h0
  · intro round_nb remote
    simp [Pairing.check_all_results, Db.get_unfinished_games]

/-- C5 witness: instantiation of `add_game_result_overwrites` on the
    one-row database. -/
theorem add_game_result_overwrites_witness :
    ({ exRowResolved with result := some 1 } : Row).result = some 1 ∧
    ∀ (round_nb : Int) (remote : String → List GameEntry),
      Pairing.check_all_results
          (Pairing.check_all_results [exRowResolved] round_nb remote).1 round_nb remote
        = Pairing.check_all_results [exRowResolved] round_nb remote :=
  add_game_result_overwrites [exRowResolved] 1 1
    { exRowResolved with result := some 1 } (by decide) (by decide)

/-! ## C4 -/

/-- A round-1 record with a session id and no result: exactly the shape the
    `get_unfinished_games` query is meant to return. -/
def exRowUnfinished : Row :=
  { rowId := 1, white_player := "a", black_player := "b"
    lichess_game_id := some "S1", result := none, round_nb := 1 }

/-- C4: `get_unfinished_games` never returns the claimed mapping — its
    malformed SELECT (trailing comma before FROM) makes `cur.execute` raise
    `sqlite3.OperationalError` on every call, here evaluated on a database
    holding a record the claim says would be returned. -/
theorem get_unfinished_games_raises :
    Db.get_unfinished_games [exRowUnfinished] 1 = Except.error PyError.operationalError := by
  rfl

/-! ## C7 -/

/-- Three paired round-1 records, the export-format scenario of the spec. -/
def exDbBroadcast : List Row :=
  [{ rowId := 1, white_player := "a", black_player := "b"
     lichess_game_id := some "g1", result := none, round_nb := 1 },
   { rowId := 2, white_player := "c", black_player := "d"
     lichess_game_id := some "g2", result := none, round_nb := 1 },
   { rowId := 3, white_player := "e", black_player := "f"
     lichess_game_id := some "g3", result := none, round_nb := 1 }]

/-- C7: on the three-record round the claim says `get_game_ids` returns the
    three ids space-joined; instead `" ".join` is applied to a non-empty
    list of row tuples (not strings) and raises `TypeError`. -/
theorem get_game_ids_raises :
    Db.get_game_ids exDbBroadcast 1 = Except.error PyError.typeError := by
  rfl

/-! ## C2 -/

/-- Remote oracle answering that game `S1` ended in mate (a conclusive,
    white-win status in the lichess vocabulary). -/
def remoteWhiteWin : String → List GameEntry :=
  fun _ => [{ id := "S1", status := "mate" }]

/-- C2, counterexample: the round-1 database holds the record with session
    `S1` and null result, and the remote reports a conclusive status for
    `S1`; yet after `check_all_results` the record's result is still null —
    the call fails with the `OperationalError` propagated from
    `get_unfinished_games` and never writes. -/
theorem check_all_results_never_sets_result_cex :
    (Pairing.check_all_results [exRowUnfinished] 1 remoteWhiteWin).1.map Row.result = [none] ∧
    (Pairing.check_all_results [exRowUnfinished] 1 remoteWhiteWin).2.1
      = some PyError.operationalError := by
  decide

/-- C2, amended: `check_all_results` never calls `add_game_result` — its
    loop only logs each returned status — and in fact it fails with the
    `OperationalError` raised inside `get_unfinished_games` before the
    lookup; the database state after the call is unchanged, so every null
    result stays null. -/
theorem check_all_results_no_write (db : List Row) (round_nb : Int)
    (remote : String → List GameEntry) :
    (Pairing.check_all_results db round_nb remote).1 = db ∧
    (Pairing.check_all_results db round_nb remote).2.1 = some PyError.operationalError := by
  simp [Pairing.check_all_results, Db.get_unfinished_games]

/-! ## C6 -/

/-- Remote oracle with no finished games. -/
def remoteEmpty : String → List GameEntry := fun _ => []

/-- C6, counterexample: round 2 has no records at all (the only record is in
    round 1), so its unresolved set is empty beyond doubt; the claim says
    `check_all_results` then returns immediately, but the call fails with
    `OperationalError` instead of returning. -/
theorem check_all_results_empty_round_cex :
    ([exRowUnfinished].filter (fun r => r.round_nb == 2)).isEmpty = true ∧
    (Pairing.check_all_results [exRowUnfinished] 2 remoteEmpty).2.1
      = some PyError.operationalError := by
  decide

/-- C6, amended: `check_all_results` issues no network call for any round,
    empty or not — not because of an empty-set check (the code has none),
    but because it always fails inside `get_unfinished_games` before
    reaching the lookup request. -/
theorem check_all_results_no_network (db : List Row) (round_nb : Int)
    (remote : String → List GameEntry) :
    (Pairing.check_all_results db round_nb remote).2.2 = [] := by
  simp [Pairing.check_all_results, Db.get_unfinished_games]

/-! ## C3 -/

/-- Three unpaired round-1 records. -/
def exDbUnpaired : List Row :=
  [{ rowId := 1, white_player := "a", black_player := "b"
     lichess_game_id := none, result := none, round_nb := 1 },
   { rowId := 2, white_player := "c", black_player := "d"
     lichess_game_id := none, result := none, round_nb := 1 },
   { rowId := 3, white_player := "e", black_player := "f"
     lichess_game_id := none, result := none, round_nb := 1 }]

/-- Session creation that rejects the second pair (white player "c") with
    `InvalidPairing` and succeeds on every other pair. -/
def cgInvalidSecond : Pair → Except ApiError String :=
  fun pair =>
    if pair.white_player = "c" then Except.error ApiError.invalidPairing
    else Except.ok ("g" ++ pair.white_player)

/-- C3, counterexample: over the three unpaired records, with the second
    `create_game` failing, the claim says records one and three end up
    paired; in fact only record one does — the loop aborts at the failure,
    so record three is still unpaired (`none`), and the error propagates. -/
theorem pair_all_players_abort_cex :
    (Pairing.pair_all_players exDbUnpaired 1 cgInvalidSecond).2
      = some ApiError.invalidPairing ∧
    (Pairing.pair_all_players exDbUnpaired 1 cgInvalidSecond).1.map Row.lichess_game_id
      = [some "ga", none, none] := by
  decide

/-- C3, amended: a per-record `create_game` failure aborts the whole loop —
    with three unpaired records and the second one failing, exactly the
    first record gets its game id recorded, the error is surfaced to the
    caller, and every row other than the first record's stays exactly as it
    was (in particular the third record remains unpaired). -/
theorem pair_all_players_aborts_on_failure
    (db : List Row) (round_nb : Int) (createGame : Pair → Except ApiError String)
    (i1 i2 i3 : Nat) (p1 p2 p3 : Pair) (g1 : String) (e : ApiError)
    (h : Db.get_unpaired_players db round_nb = [(i1, p1), (i2, p2), (i3, p3)])
    (h1 : createGame p1 = Except.ok g1) (h2 : createGame p2 = Except.error e) :
    Pairing.pair_all_players db round_nb createGame
      = (Db.add_lichess_game_id db i1 g1, some e) ∧
    ∀ r ∈ db, r.rowId ≠ i1 → r ∈ (Pairing.pair_all_players db round_nb createGame).1 := by
  have hmain : Pairing.pair_all_players db round_nb createGame
      = (Db.add_lichess_game_id db i1 g1, some e) := by
    simp [Pairing.pair_all_players, h, Pairing.pair_all_players_loop, h1, h2]
  refine ⟨hmain, ?_⟩
  intro r hr hne
  rw [hmain]
  have hmem := List.mem_map_of_mem
    (fun r => if r.rowId = i1 then { r with lichess_game_id := some g1 } else r) hr
  simpa [Db.add_lichess_game_id, hne] using hmem

/-- C3 witness: instantiation of `pair_all_players_aborts_on_failure` on the
    three-record database with `cgInvalidSecond`. -/
theorem pair_all_players_aborts_on_failure_witness :
    (Pairing.pair_all_players exDbUnpaired 1 cgInvalidSecond
      = (Db.add_lichess_game_id exDbUnpaired 1 "ga", some ApiError.invalidPairing)) ∧
    ∀ r ∈ exDbUnpaired, r.rowId ≠ 1 →
      r ∈ (Pairing.pair_all_players exDbUnpaired 1 cgInvalidSecond).1 :=
  pair_all_players_aborts_on_failure exDbUnpaired 1 cgInvalidSecond 1 2 3
    (Pair.mk "a" "b") (Pair.mk "c" "d") (Pair.mk "e" "f") "ga" ApiError.invalidPairing
    (by decide) (by rfl) (by rfl)

/-! ## C8 -/

/-- C8: `create_game_request` identifies the pair's white player and black
    player as the two path segments of the challenge URL (white first) and
    carries the fixed payload rated="true", clock 600+2, color="white";
    instantiated on ("alice", "bob"). -/
theorem create_game_request_params (pair : Pair) :
    (Pairing.create_game_request pair).url
      = BASE ++ "/api/challenge/admin/" ++ pair.white_player ++ "/" ++ pair.black_player ∧
    (Pairing.create_game_request pair).rated = "true" ∧
    (Pairing.create_game_request pair).clockLimit = 600 ∧
    (Pairing.create_game_request pair).clockIncrement = 2 ∧
    (Pairing.create_game_request pair).color = "white" ∧
    (Pairing.create_game_request (Pair.mk "alice" "bob")).url
      = "https://lichess.org/api/challenge/admin/alice/bob" :=
  ⟨rfl, rfl, rfl, rfl, rfl, by rfl⟩

/-! ## C9 -/

/-- An unpaired round-1 record. -/
def exRowRound1 : Row :=
  { rowId := 1, white_player := "a", black_player := "b"
    lichess_game_id := none, result := none, round_nb := 1 }

/-- An unpaired round-2 record with the same player handles as round 1. -/
def exRowRound2 : Row :=
  { rowId := 2, white_player := "a", black_player := "b"
    lichess_game_id := none, result := none, round_nb := 2 }

/-- C9: round isolation.  With distinct rowIds (sqlite's rowId is the
    primary key), a record of round `r1` is never returned by
    `get_unpaired_players` scoped to a different round `r2` — every
    returned entry carries the rowId of a round-`r2` row — and
    `get_unfinished_games` scoped to `r2` returns no record of `r1` either
    (it never returns anything: its SELECT always raises). -/
theorem round_isolation (db : List Row) (r1 r2 : Int) (hne : r1 ≠ r2)
    (hnd : (db.map Row.rowId).Nodup) (row : Row) (hrow : row ∈ db)
    (hround : row.round_nb = r1) :
    (∀ x ∈ Db.get_unpaired_players db r2, x.1 ≠ row.rowId) ∧
    (∀ m : List (String × Nat), Db.get_unfinished_games db r2 ≠ Except.ok m) := by
  constructor
  · intro x hx hxeq
    rcases List.mem_map.mp hx with ⟨r0, hr0f, hmap⟩
    rcases List.mem_filter.mp hr0f with ⟨hr0, hprop⟩
    have hr0round : r0.round_nb = r2 := by
      have h2 := (Bool.and_eq_true _ _).mp hprop
      simpa using h2.2
    have hid : r0.rowId = row.rowId := by
      rw [← hmap] at hxeq
      exact hxeq
    have heq : r0 = row := List.inj_on_of_nodup_map hnd hr0 hrow hid
    rw [heq] at hr0round
    exact hne (hround ▸ hr0round)
  · intro m hm
    simp [Db.get_unfinished_games] at hm

/-- C9 witness: instantiation of `round_isolation` on a two-round database
    in which both rounds reuse the same player handles. -/
theorem round_isolation_witness :
    (∀ x ∈ Db.get_unpaired_players [exRowRound1, exRowRound2] 2, x.1 ≠ exRowRound1.rowId) ∧
    (∀ m : List (String × Nat),
      Db.get_unfinished_games [exRowRound1, exRowRound2] 2 ≠ Except.ok m) :=
  round_isolation [exRowRound1, exRowRound2] 1 2 (by decide) (by decide)
    exRowRound1 (by decide) (by decide)

/-! ## C10 -/

/-- Both UPDATEs preserve the number of rows. -/
theorem add_lichess_game_id_length (db : List Row) (row_id : Nat) (game_id : String) :
    (Db.add_lichess_game_id db row_id game_id).length = db.length := by
  simp [Db.add_lichess_game_id]

/-- Like `add_lichess_game_id_length`, for `add_game_result`. -/
theorem add_game_result_length (db : List Row) (row_id : Nat) (result : Int) :
    (Db.add_game_result db row_id result).length = db.length := by
  simp [Db.add_game_result]

/-- C10: both UPDATEs are frame-preserving.  Position by position,
    `add_lichess_game_id` keeps `rowId`, both player handles, `round_nb`
    and `result` of every row, and leaves any row whose `rowId` differs
    from the targeted one entirely unchanged; `add_game_result` likewise
    keeps everything but `result`. -/
theorem ledger_mutations_frame (db : List Row) (row_id : Nat) (game_id : String)
    (result : Int) (i : Nat) (h : i < db.length) :
    (((Db.add_lichess_game_id db row_id game_id).get
        ⟨i, (add_lichess_game_id_length db row_id game_id).symm ▸ h⟩).rowId
        = (db.get ⟨i, h⟩).rowId ∧
     ((Db.add_lichess_game_id db row_id game_id).get
        ⟨i, (add_lichess_game_id_length db row_id game_id).symm ▸ h⟩).white_player
        = (db.get ⟨i, h⟩).white_player ∧
     ((Db.add_lichess_game_id db row_id game_id).get
        ⟨i, (add_lichess_game_id_length db row_id game_id).symm ▸ h⟩).black_player
        = (db.get ⟨i, h⟩).black_player ∧
     ((Db.add_lichess_game_id db row_id game_id).get
        ⟨i, (add_lichess_game_id_length db row_id game_id).symm ▸ h⟩).round_nb
        = (db.get ⟨i, h⟩).round_nb ∧
     ((Db.add_lichess_game_id db row_id game_id).get
        ⟨i, (add_lichess_game_id_length db row_id game_id).symm ▸ h⟩).result
        = (db.get ⟨i, h⟩).result ∧
     ((db.get ⟨i, h⟩).rowId ≠ row_id →
       (Db.add_lichess_game_id db row_id game_id).get
        ⟨i, (add_lichess_game_id_length db row_id game_id).symm ▸ h⟩ = db.get ⟨i, h⟩)) ∧
    (((Db.add_game_result db row_id result).get
        ⟨i, (add_game_result_length db row_id result).symm ▸ h⟩).rowId
        = (db.get ⟨i, h⟩).rowId ∧
     ((Db.add_game_result db row_id result).get
        ⟨i, (add_game_result_length db row_id result).symm ▸ h⟩).white_player
        = (db.get ⟨i, h⟩).white_player ∧
     ((Db.add_game_result db row_id result).get
        ⟨i, (add_game_result_length db row_id result).symm ▸ h⟩).black_player
        = (db.get ⟨i, h⟩).black_player ∧
     ((Db.add_game_result db row_id result).get
        ⟨i, (add_game_result_length db row_id result).symm ▸ h⟩).round_nb
        = (db.get ⟨i, h⟩).round_nb ∧
     ((Db.add_game_result db row_id result).get
        ⟨i, (add_game_result_length db row_id result).symm ▸ h⟩).lichess_game_id
        = (db.get ⟨i, h⟩).lichess_game_id ∧
     ((db.get ⟨i, h⟩).rowId ≠ row_id →
       (Db.add_game_result db row_id result).get
        ⟨i, (add_game_result_length db row_id result).symm ▸ h⟩ = db.get ⟨i, h⟩)) := by
  simp only [Db.add_lichess_game_id, Db.add_game_result, List.get_eq_getElem,
    List.getElem_map]
  by_cases hcase : db[i].rowId = row_id <;> simp [hcase]

/-- C10 witness: instantiation of `ledger_mutations_frame` on the one-row
    database, targeting a rowId not present in it, so the row is unchanged
    by `add_lichess_game_id`. -/
theorem ledger_mutations_frame_witness :
    (Db.add_lichess_game_id [exRowPaired] 77 "g").get ⟨0, by decide⟩
      = ([exRowPaired] : List Row).get ⟨0, by decide⟩ :=
  (ledger_mutations_frame [exRowPaired] 77 "g" 0 0 (by decide)).1.2.2.2.2.2 (by decide)
